import Mathlib

/-!
Verification of the bitcraft-chatbridge pipeline (src/main.rs, src/glue.rs).

The program bridges a game database change feed into chat notifications:
a `sieve` task keeps three id → name caches (claims, empires, players),
turns inserted chat/moderation rows into `Message` values and sends them
over an unbounded FIFO channel to the `consume` task, which echoes each
`Chat` message and optionally POSTs it to a webhook, stopping at the
`Disconnect` sentinel.  This file is a shallow embedding of that logic;
definitions mirror the Rust source item by item.
-/

namespace ChatBridge

/-! ## Messages (src/main.rs, `enum Message` and its constructors) -/

/-- `enum Message`: the notification type flowing from sieve to sink. -/
inductive Message where
  | Disconnect : Message
  | Chat (username : String) (content : String) : Message
deriving DecidableEq, Repr

/-- `Message::chat`. -/
def Message.chat (username content : String) : Message :=
  Message.Chat username content

/-- `Message::claim`: formats `"{} [{}]"` of username and claim name. -/
def Message.claim (username claim content : String) : Message :=
  Message.chat (username ++ " [" ++ claim ++ "]") content

/-- `Message::empire`: formats `"{} [{}]"` of username and empire name. -/
def Message.empire (username empire content : String) : Message :=
  Message.chat (username ++ " [" ++ empire ++ "]") content

/-- `Message::moderation`: fixed username `<<MODERATION>>`, content
`"User {} has been banned from {} {}!"`. -/
def Message.moderation (username policy expiry : String) : Message :=
  Message.chat "<<MODERATION>>"
    ("User " ++ username ++ " has been banned from " ++ policy ++ " " ++ expiry ++ "!")

/-! ## Rows and update batches (external `bindings` crate types, as used by src/main.rs)

The row types come from the generated `bindings` crate, which is not part of
src/; their fields are modelled from the spec's data model (§3) restricted to
the fields `sieve` reads.  Numeric ids are machine integers in Rust; the
claims never exercise overflow, so they are embedded as `Int`. -/

/-- A row of `claim_state` / `empire_state`: `{entity_id, name}`. -/
structure ReferenceRow where
  entity_id : Int
  name : String
deriving DecidableEq, Repr

/-- A row of `player_username_state`: `{entity_id, username}`. -/
structure PlayerRow where
  entity_id : Int
  username : String
deriving DecidableEq, Repr

/-- A row of `chat_message_state` as read by `sieve`:
`{channel_id, target_id, username, text, timestamp}`. -/
structure ChatRow where
  channel_id : Int
  target_id : Int
  username : String
  text : String
  timestamp : Int
deriving DecidableEq, Repr

/-- `UserModerationPolicy` (external enum, variants as matched in `sieve`). -/
inductive UserModerationPolicy where
  | PermanentBlockLogin
  | TemporaryBlockLogin
  | BlockChat
  | BlockConstruct
deriving DecidableEq, Repr

/-- A row of `user_moderation_state` as read by `sieve`:
`{target_entity_id, user_moderation_policy, expiration_time}`.
`expiration_time` is a `Timestamp`, embedded as microseconds since the
Unix epoch (the only operation the program applies to it). -/
structure ModerationRow where
  target_entity_id : Int
  user_moderation_policy : UserModerationPolicy
  expiration_time : Int
deriving DecidableEq, Repr

/-- The SDK wraps each inserted row: `sieve` reads `insert.row`. -/
structure RowUpdate (α : Type) where
  row : α
deriving DecidableEq, Repr

/-- A per-table update: `sieve` reads only the `inserts` sequence. -/
structure TableUpdate (α : Type) where
  inserts : List (RowUpdate α)
deriving DecidableEq, Repr

/-- `DbUpdate`: one tick of the change feed, restricted to the five tables
`sieve` consumes. -/
structure DbUpdate where
  claim_state : TableUpdate ReferenceRow
  empire_state : TableUpdate ReferenceRow
  player_username_state : TableUpdate PlayerRow
  chat_message_state : TableUpdate ChatRow
  user_moderation_state : TableUpdate ModerationRow
deriving DecidableEq, Repr

/-! ## Channel discriminants

Modelled from the spec: the numeric values of the external `ChatChannel`
enum live in the generated `bindings` crate, not in src/.  The spec (§3)
treats `channel_id` as a closed enumeration {EmpireInternal, EmpirePublic,
Claim, Region, other}; the four named discriminants are distinct integers
(consistent with the subscription filter `channel_id > 2`).  No claim
depends on the concrete values, only on which match arm a value selects. -/

def EMPIRE_INTERNAL : Int := 3

def EMPIRE_PUBLIC : Int := 4

def CLAIM : Int := 5

def REGION : Int := 6

/-! ## Caches

`sieve` keeps three `HashMap`s id → name.  A hash map is embedded
extensionally as a partial function `Int → Option String`; `HashMap::insert`
is pointwise overwrite. -/

/-- The type of one lookup cache. -/
def Cache : Type := Int → Option String

/-- The empty cache (`HashMap::new`). -/
def Cache.empty : Cache := fun _ => none

/-- `HashMap::insert`: overwrite the binding of `k` with `v`. -/
def Cache.insert (m : Cache) (k : Int) (v : String) : Cache :=
  fun x => if x = k then some v else m x

/-- `HashMap::get`. -/
def Cache.get (m : Cache) (k : Int) : Option String := m k

/-- Folding a batch of (id, name) pairs into a cache, in row order. -/
def Cache.insertAll (m : Cache) (rows : List (Int × String)) : Cache :=
  rows.foldl (fun acc r => acc.insert r.1 r.2) m

/-- The sieve's mutable state: the three caches. -/
structure Caches where
  claims : Cache
  empires : Cache
  players : Cache

/-- The caches at the start of `sieve` (three `HashMap::new()`). -/
def Caches.init : Caches :=
  ⟨Cache.empty, Cache.empty, Cache.empty⟩

/-! ## The sieve body (src/main.rs, `sieve`) -/

/-- Phase 1 of one loop iteration of `sieve`: apply every reference-row
insert of the batch to the caches (claims, then empires, then players),
before any fact row is looked at. -/
def applyRefs (c : Caches) (u : DbUpdate) : Caches where
  claims := c.claims.insertAll
    (u.claim_state.inserts.map fun i => (i.row.entity_id, i.row.name))
  empires := c.empires.insertAll
    (u.empire_state.inserts.map fun i => (i.row.entity_id, i.row.name))
  players := c.players.insertAll
    (u.player_username_state.inserts.map fun i => (i.row.entity_id, i.row.username))

/-- Phase 2, per chat row: the `match msg.row.channel_id` dispatch.
Returns the notification to send, or `none` (lookup miss or foreign
channel).  The if-chain mirrors the Rust `match` arm order. -/
def resolveChat (claims empires : Cache) (m : ChatRow) : Option Message :=
  if m.channel_id = EMPIRE_INTERNAL ∨ m.channel_id = EMPIRE_PUBLIC then
    (empires.get m.target_id).map fun e => Message.empire m.username e m.text
  else if m.channel_id = CLAIM then
    (claims.get m.target_id).map fun e => Message.claim m.username e m.text
  else if m.channel_id = REGION then
    some (Message.chat m.username m.text)
  else
    none

/-- `as_expiry`: renders a timestamp as a Discord-style marker,
`"until <t:{}:f>!"` of the timestamp in whole seconds.  Rust `i64`
division truncates toward zero, which is `Int.div`. -/
def as_expiry (expiry : Int) : String :=
  "until <t:" ++ toString (Int.tdiv expiry 1000000) ++ ":f>!"

/-- Phase 3, per moderation row: resolve the target against the player
cache with the `"\x7b{}\x7d"` fallback, then branch on the policy.
Always produces a message. -/
def resolveModeration (players : Cache) (m : ModerationRow) : Message :=
  let user := (players.get m.target_entity_id).getD
    ("\x7b" ++ toString m.target_entity_id ++ "\x7d")
  match m.user_moderation_policy with
  | .PermanentBlockLogin => Message.moderation user "logging in" "permanently"
  | .TemporaryBlockLogin => Message.moderation user "logging in" (as_expiry m.expiration_time)
  | .BlockChat => Message.moderation user "chatting" (as_expiry m.expiration_time)
  | .BlockConstruct => Message.moderation user "building" (as_expiry m.expiration_time)

/-- One full loop iteration of `sieve` on one `DbUpdate`: reference
inserts first, then the chat rows, then the moderation rows; returns the
updated caches and the messages sent to the queue, in send order. -/
def processUpdate (c : Caches) (u : DbUpdate) : Caches × List Message :=
  let c' := applyRefs c u
  (c',
    u.chat_message_state.inserts.filterMap (fun m => resolveChat c'.claims c'.empires m.row)
      ++ u.user_moderation_state.inserts.map (fun m => resolveModeration c'.players m.row))

/-! ## The sink (src/main.rs, `consume`)

`consume` dequeues messages until `Disconnect` (break) or channel closure
(recv returns None); for each `Chat` it prints `"{}: {}"`, and when the
webhook url is non-empty it POSTs the serialized message once, logging
`"failed to send message"` on a transport error or non-success status.
The queue is embedded as the list of messages the sink will be handed (an
exhausted list standing for channel closure), and the outcome of the
`k`-th POST attempt of the run as an oracle `deliver k`. -/

/-- `true` exactly on the `Disconnect` sentinel. -/
def Message.isDisconnect : Message → Bool
  | .Disconnect => true
  | .Chat _ _ => false

/-- The `println!("{}: {}", username, content)` echo line of a `Chat`. -/
def chatLine : Message → Option String
  | .Disconnect => none
  | .Chat u c => some (u ++ ": " ++ c)

/-- What one run of `consume` did: the lines echoed to stdout, the
messages for which a POST was attempted (in order), the number of
`"failed to send message"` diagnostics, and whether the loop ended by
breaking on `Disconnect` (`stopped = true`) rather than by exhausting
the channel. -/
structure SinkResult where
  echoed : List String
  attempts : List Message
  failures : Nat
  stopped : Bool
deriving DecidableEq, Repr

/-- The `consume` loop, from attempt index `k` onward. -/
def consumeFrom (url : String) (deliver : Nat → Bool) : Nat → List Message → SinkResult
  | _, [] => ⟨[], [], 0, false⟩
  | _, .Disconnect :: _ => ⟨[], [], 0, true⟩
  | k, .Chat u c :: rest =>
    let line := u ++ ": " ++ c
    if url.isEmpty then
      let r := consumeFrom url deliver k rest
      ⟨line :: r.echoed, r.attempts, r.failures, r.stopped⟩
    else
      let r := consumeFrom url deliver (k + 1) rest
      ⟨line :: r.echoed, .Chat u c :: r.attempts,
        (if deliver k then 0 else 1) + r.failures, r.stopped⟩

/-- `consume`, started at attempt index 0. -/
def consume (url : String) (deliver : Nat → Bool) (q : List Message) : SinkResult :=
  consumeFrom url deliver 0 q

/-! ## Configuration (src/glue.rs, `Config`) -/

/-- `struct Config`: the four opaque configuration strings. -/
structure Config where
  webhook_url : String
  cluster_url : String
  region : String
  token : String
deriving DecidableEq, Repr

namespace Config

/-- `Config::is_empty`: true when `cluster_url`, `region` or `token` is
empty; `webhook_url` is not consulted. -/
def is_empty (c : Config) : Bool :=
  c.cluster_url.isEmpty || c.region.isEmpty || c.token.isEmpty

end Config

/-! ## The pipeline run (src/main.rs, `main`)

`main` spawns three tasks: the SDK connection task, which forwards each
`DbUpdate` into the unbounded channel `rx_ctx` and, on disconnection,
sends `Message::Disconnect` directly into the message channel through
`tx_shutdown`; the `sieve` task, which drains `rx_ctx` and sends the
materialized messages into the message channel; and the `consume` task.
The run is embedded as a small-step interleaving semantics.  The source
is scripted as a list of updates followed by the single disconnection
event (the SDK boundary delivers updates in order and reports
disconnection exactly once, after the last update).  `sieve` handles one
`DbUpdate` per step; splitting its sends finer only adds interleavings
in which the same messages are enqueued in the same relative order. -/

/-- A configuration of the running pipeline. -/
structure PState where
  /-- Updates the connection task has not yet forwarded. -/
  src : List DbUpdate
  /-- The disconnection event has not yet fired. -/
  discPending : Bool
  /-- Contents of the update channel (`rx_ctx`), oldest first. -/
  ctxQ : List DbUpdate
  /-- The sieve's caches. -/
  caches : Caches
  /-- Contents of the message channel (`rx_msg`), oldest first. -/
  msgQ : List Message
  /-- Append-only log of every message ever enqueued on `rx_msg`. -/
  sent : List Message
  /-- The consume task has returned. -/
  sinkDone : Bool
  /-- Lines echoed by the consume task. -/
  echoed : List String

/-- One scheduler step of the pipeline. -/
inductive Step : PState → PState → Prop where
  /-- The connection task forwards the next update into `rx_ctx`. -/
  | srcUpdate (s : PState) (u : DbUpdate) (rest : List DbUpdate)
      (h : s.src = u :: rest) :
      Step s { s with src := rest, ctxQ := s.ctxQ ++ [u] }
  /-- After the last update, `on_disconnect` fires once and sends the
  sentinel straight into the message channel. -/
  | srcDisconnect (s : PState) (h : s.src = []) (hd : s.discPending = true) :
      Step s { s with discPending := false,
                      msgQ := s.msgQ ++ [Message.Disconnect],
                      sent := s.sent ++ [Message.Disconnect] }
  /-- `sieve` receives one buffered update and sends the produced
  messages. -/
  | sieveStep (s : PState) (u : DbUpdate) (rest : List DbUpdate)
      (h : s.ctxQ = u :: rest) :
      Step s { s with ctxQ := rest,
                      caches := (processUpdate s.caches u).1,
                      msgQ := s.msgQ ++ (processUpdate s.caches u).2,
                      sent := s.sent ++ (processUpdate s.caches u).2 }
  /-- `consume` dequeues a `Chat` and echoes it. -/
  | sinkChat (s : PState) (u c : String) (rest : List Message)
      (hrun : s.sinkDone = false) (h : s.msgQ = Message.Chat u c :: rest) :
      Step s { s with msgQ := rest, echoed := s.echoed ++ [u ++ ": " ++ c] }
  /-- `consume` dequeues the sentinel and breaks. -/
  | sinkDisconnect (s : PState) (rest : List Message)
      (hrun : s.sinkDone = false) (h : s.msgQ = Message.Disconnect :: rest) :
      Step s { s with msgQ := rest, sinkDone := true }

/-- States reachable from `s₀` by scheduler steps. -/
inductive Reach (s₀ : PState) : PState → Prop where
  | refl : Reach s₀ s₀
  | tail {s s' : PState} : Reach s₀ s → Step s s' → Reach s₀ s'

/-- The pipeline state right after startup, for a run whose source will
deliver the updates `us` and then disconnect. -/
def initState (us : List DbUpdate) : PState :=
  ⟨us, true, [], Caches.init, [], [], false, []⟩

/-- No `Chat` is enqueued behind the sentinel in the enqueue log `l`. -/
def noChatAfterSentinel (l : List Message) : Prop :=
  ∀ l₁ l₂ u c, l = l₁ ++ Message.Disconnect :: l₂ → Message.Chat u c ∉ l₂

/-- An empty per-table update. -/
def TableUpdate.empty (α : Type) : TableUpdate α := ⟨[]⟩

/-- A one-tick update carrying a single Region chat row (Scenario B's
row), used to exhibit concrete runs. -/
def demoUpdate : DbUpdate where
  claim_state := TableUpdate.empty _
  empire_state := TableUpdate.empty _
  player_username_state := TableUpdate.empty _
  chat_message_state := ⟨[⟨⟨REGION, 0, "Ann", "hi all", 0⟩⟩]⟩
  user_moderation_state := TableUpdate.empty _

/-- Scenario A's tick: empire `(5, "Sol Empire")` inserted together with a
chat row `{channel: EmpireInternal, target: 5, username: "Bob",
text: "hello"}`. -/
def scenarioA : DbUpdate where
  claim_state := TableUpdate.empty _
  empire_state := ⟨[⟨⟨5, "Sol Empire"⟩⟩]⟩
  player_username_state := TableUpdate.empty _
  chat_message_state := ⟨[⟨⟨EMPIRE_INTERNAL, 5, "Bob", "hello", 0⟩⟩]⟩
  user_moderation_state := TableUpdate.empty _

/-- The run on the single-tick script `[demoUpdate]` after the source
forwarded the tick. -/
def runState1 : PState :=
  ⟨[], true, [demoUpdate], Caches.init, [], [], false, []⟩

/-- The same run after the disconnection fired while the tick was still
buffered: the sentinel is already in the message queue. -/
def runState2 : PState :=
  ⟨[], false, [demoUpdate], Caches.init, [Message.Disconnect], [Message.Disconnect], false, []⟩

/-- The same run after the sieve then processed the buffered tick: a
`Chat` was enqueued behind the sentinel. -/
def runState3 : PState :=
  ⟨[], false, [], (processUpdate Caches.init demoUpdate).1,
    [Message.Disconnect, Message.Chat "Ann" "hi all"],
    [Message.Disconnect, Message.Chat "Ann" "hi all"], false, []⟩

/-! # Theorems -/

/-! ## Helper lemmas about the sink loop -/

/-- With an empty webhook url, `consume` never attempts a delivery
(`continue` is taken before the POST). -/
theorem consumeFrom_attempts_empty_url (d : Nat → Bool) :
    ∀ (q : List Message) (k : Nat), (consumeFrom "" d k q).attempts = [] := by
  intro q
  induction q with
  | nil => intro k; rfl
  | cons m rest ih =>
    intro k
    cases m with
    | Disconnect => rfl
    | Chat u c =>
      have he : ("" : String).isEmpty = true := rfl
      simp [consumeFrom, he, ih]

/-- With a non-empty webhook url, `consume` attempts exactly one delivery
per `Chat` it dequeues before the sentinel, in queue order. -/
theorem consumeFrom_attempts_of_ne (url : String) (hne : url ≠ "") (d : Nat → Bool) :
    ∀ (q : List Message) (k : Nat),
      (consumeFrom url d k q).attempts = q.takeWhile (fun m => !m.isDisconnect) := by
  have he : url.isEmpty = false := by
    rw [Bool.eq_false_iff]
    intro h
    exact hne ((String.isEmpty_iff _).mp h)
  intro q
  induction q with
  | nil => intro k; rfl
  | cons m rest ih =>
    intro k
    cases m with
    | Disconnect => simp [consumeFrom, List.takeWhile, Message.isDisconnect]
    | Chat u c => simp [consumeFrom, he, ih, List.takeWhile, Message.isDisconnect]

/-- The lines `consume` echoes are exactly the `"{}: {}"` renderings of
the `Chat` messages preceding the first sentinel, independent of the
webhook url, the delivery outcomes and the attempt index. -/
theorem consumeFrom_echoed_eq (url : String) (d : Nat → Bool) :
    ∀ (q : List Message) (k : Nat),
      (consumeFrom url d k q).echoed =
        (q.takeWhile (fun m => !m.isDisconnect)).filterMap chatLine := by
  intro q
  induction q with
  | nil => intro k; rfl
  | cons m rest ih =>
    intro k
    cases m with
    | Disconnect => simp [consumeFrom, List.takeWhile, Message.isDisconnect]
    | Chat u c =>
      cases he : url.isEmpty <;>
        simp [consumeFrom, he, ih, List.takeWhile, Message.isDisconnect, chatLine]

/-- `consume` breaks out of its loop exactly when the queue holds the
sentinel. -/
theorem consumeFrom_stopped_eq (url : String) (d : Nat → Bool) :
    ∀ (q : List Message) (k : Nat),
      (consumeFrom url d k q).stopped = q.any Message.isDisconnect := by
  intro q
  induction q with
  | nil => intro k; rfl
  | cons m rest ih =>
    intro k
    cases m with
    | Disconnect => simp [consumeFrom, Message.isDisconnect]
    | Chat u c =>
      cases he : url.isEmpty <;>
        simp [consumeFrom, he, ih, Message.isDisconnect]

/-- The delivery attempts `consume` makes do not depend on the delivery
outcomes or the attempt index. -/
theorem consumeFrom_attempts_indep (url : String) (d d' : Nat → Bool) :
    ∀ (q : List Message) (k k' : Nat),
      (consumeFrom url d k q).attempts = (consumeFrom url d' k' q).attempts := by
  intro q
  induction q with
  | nil => intro k k'; rfl
  | cons m rest ih =>
    intro k k'
    cases m with
    | Disconnect => rfl
    | Chat u c =>
      cases he : url.isEmpty <;> simp [consumeFrom, he]
      · exact ih (k + 1) (k' + 1)
      · exact ih k k'

/-- When every delivery succeeds, no failure is logged. -/
theorem consumeFrom_failures_all_ok (url : String) :
    ∀ (q : List Message) (k : Nat),
      (consumeFrom url (fun _ => true) k q).failures = 0 := by
  intro q
  induction q with
  | nil => intro k; rfl
  | cons m rest ih =>
    intro k
    cases m with
    | Disconnect => rfl
    | Chat u c =>
      cases he : url.isEmpty <;> simp [consumeFrom, he, ih]

/-- When every delivery fails, one failure line is logged per attempt. -/
theorem consumeFrom_failures_all_bad (url : String) :
    ∀ (q : List Message) (k : Nat),
      (consumeFrom url (fun _ => false) k q).failures =
        (consumeFrom url (fun _ => false) k q).attempts.length := by
  intro q
  induction q with
  | nil => intro k; rfl
  | cons m rest ih =>
    intro k
    cases m with
    | Disconnect => rfl
    | Chat u c =>
      cases he : url.isEmpty <;> simp [consumeFrom, he, ih]
      omega

/-- C6: for every cache and every pair of inserts with the same
`entity_id`, applying the same insert twice leaves the cache exactly as
applying it once, and of two inserts for one id the later one wins, both
as whole-cache states and for the subsequent lookup of that id. -/
theorem cache_insert_idempotent_overwrite :
    ∀ (m : Cache) (k : Int) (v v' : String),
      ((m.insert k v).insert k v = m.insert k v) ∧
      ((m.insert k v).insert k v' = m.insert k v') ∧
      (((m.insert k v).insert k v').get k = some v') := by
  intro m k v v'
  refine ⟨funext fun x => ?_, funext fun x => ?_, ?_⟩
  · by_cases h : x = k <;> simp [Cache.insert, h]
  · by_cases h : x = k <;> simp [Cache.insert, h]
  · simp [Cache.insert, Cache.get]

/-- C9: every notification built from a moderation row is a `Chat` whose
username field is the fixed string `<<MODERATION>>`; the resolved (or
fallback) player name can only occur inside the content. -/
theorem moderation_username_constant :
    ∀ (players : Cache) (m : ModerationRow),
      ∃ content, resolveModeration players m = Message.Chat "<<MODERATION>>" content := by
  intro players m
  cases h : m.user_moderation_policy <;>
    simp [resolveModeration, h, Message.moderation, Message.chat]

/-- C10: `Config::is_empty` is true exactly when `cluster_url`, `region`
or `token` is the empty string; `webhook_url` is never consulted, and a
configuration whose only empty field is `webhook_url` is accepted, in
which case the sink makes no delivery attempt (echo-only mode). -/
theorem config_is_empty_spec :
    (∀ c : Config,
      c.is_empty = true ↔ (c.cluster_url = "" ∨ c.region = "" ∨ c.token = "")) ∧
    (∀ (c : Config) (w w' : String),
      Config.is_empty ⟨w, c.cluster_url, c.region, c.token⟩ =
        Config.is_empty ⟨w', c.cluster_url, c.region, c.token⟩) ∧
    (Config.is_empty ⟨"", "https://host", "region-1", "secret"⟩ = false ∧
      ∀ d q, (consume (Config.webhook_url ⟨"", "https://host", "region-1", "secret"⟩) d q).attempts = []) := by
  refine ⟨?_, ?_, ?_, ?_⟩
  · intro c
    simp [Config.is_empty, String.isEmpty_iff]
    tauto
  · intro c w w'
    rfl
  · rfl
  · intro d q
    exact consumeFrom_attempts_empty_url d q 0

/-- C4: the chat-row dispatch of `sieve`: EmpireInternal/EmpirePublic
resolve `target_id` in the empire cache, Claim in the claim cache, Region
performs no lookup, any other channel produces no notification; a hit
emits `Chat` with username `"<username> [<resolved name>]"` and the
unchanged text, Region emits the row unchanged, a miss emits nothing. -/
theorem chat_row_dispatch :
    ∀ (claims empires : Cache) (m : ChatRow),
      ((m.channel_id = EMPIRE_INTERNAL ∨ m.channel_id = EMPIRE_PUBLIC) →
        (∀ name, empires.get m.target_id = some name →
          resolveChat claims empires m =
            some (Message.chat (m.username ++ " [" ++ name ++ "]") m.text)) ∧
        (empires.get m.target_id = none → resolveChat claims empires m = none)) ∧
      (m.channel_id = CLAIM →
        (∀ name, claims.get m.target_id = some name →
          resolveChat claims empires m =
            some (Message.chat (m.username ++ " [" ++ name ++ "]") m.text)) ∧
        (claims.get m.target_id = none → resolveChat claims empires m = none)) ∧
      (m.channel_id = REGION →
        resolveChat claims empires m = some (Message.chat m.username m.text)) ∧
      (m.channel_id ≠ EMPIRE_INTERNAL → m.channel_id ≠ EMPIRE_PUBLIC →
        m.channel_id ≠ CLAIM → m.channel_id ≠ REGION →
        resolveChat claims empires m = none) := by
  intro claims empires m
  refine ⟨fun h => ⟨fun name hn => ?_, fun hn => ?_⟩,
    fun h => ⟨fun name hn => ?_, fun hn => ?_⟩, fun h => ?_, fun h1 h2 h3 h4 => ?_⟩
  · simp [resolveChat, h, hn, Message.empire, Message.chat]
  · simp [resolveChat, h, hn]
  · simp [resolveChat, h, hn, EMPIRE_INTERNAL, EMPIRE_PUBLIC, CLAIM,
      Message.claim, Message.chat]
  · simp [resolveChat, h, hn, EMPIRE_INTERNAL, EMPIRE_PUBLIC, CLAIM]
  · simp [resolveChat, h, EMPIRE_INTERNAL, EMPIRE_PUBLIC, CLAIM, REGION,
      Message.chat]
  · simp [resolveChat, h1, h2, h3, h4]

/-- C4 witness, Scenario A: with `(5, "Sol Empire")` in the empire cache,
the EmpireInternal chat row `(target 5, "Bob", "hello")` resolves to
`Chat "Bob [Sol Empire]" "hello"`. -/
theorem chat_row_dispatch_witness :
    ((EMPIRE_INTERNAL = EMPIRE_INTERNAL ∨ EMPIRE_INTERNAL = EMPIRE_PUBLIC) ∧
      (Cache.empty.insert 5 "Sol Empire").get 5 = some "Sol Empire") ∧
    resolveChat Cache.empty (Cache.empty.insert 5 "Sol Empire")
        ⟨EMPIRE_INTERNAL, 5, "Bob", "hello", 0⟩ =
      some (Message.chat "Bob [Sol Empire]" "hello") := by
  refine ⟨⟨Or.inl rfl, by decide⟩, ?_⟩
  have h := ((chat_row_dispatch Cache.empty (Cache.empty.insert 5 "Sol Empire")
    ⟨EMPIRE_INTERNAL, 5, "Bob", "hello", 0⟩).1 (Or.inl rfl)).1 "Sol Empire" (by decide)
  exact h

/-- C5: moderation-row formatting: the player name is resolved with the
`"\x7b<id>\x7d"` fallback on a cache miss, and the content follows the
template `"User <name> has been banned from <action> <expiry-phrase>!"`
with the action keyed by the policy and the expiry phrase either
`"permanently"` (PermanentBlockLogin) or derived from `expiration_time`
by `as_expiry`. -/
theorem moderation_row_formatting :
    ∀ (players : Cache) (m : ModerationRow),
      (∀ name, players.get m.target_entity_id = some name →
        (players.get m.target_entity_id).getD
          ("\x7b" ++ toString m.target_entity_id ++ "\x7d") = name) ∧
      (players.get m.target_entity_id = none →
        (players.get m.target_entity_id).getD
          ("\x7b" ++ toString m.target_entity_id ++ "\x7d") =
          "\x7b" ++ toString m.target_entity_id ++ "\x7d") ∧
      (as_expiry m.expiration_time =
        "until <t:" ++ toString (Int.tdiv m.expiration_time 1000000) ++ ":f>!") ∧
      (m.user_moderation_policy = .PermanentBlockLogin →
        resolveModeration players m = Message.chat "<<MODERATION>>"
          ("User " ++ (players.get m.target_entity_id).getD
              ("\x7b" ++ toString m.target_entity_id ++ "\x7d") ++
            " has been banned from " ++ "logging in" ++ " " ++ "permanently" ++ "!")) ∧
      (m.user_moderation_policy = .TemporaryBlockLogin →
        resolveModeration players m = Message.chat "<<MODERATION>>"
          ("User " ++ (players.get m.target_entity_id).getD
              ("\x7b" ++ toString m.target_entity_id ++ "\x7d") ++
            " has been banned from " ++ "logging in" ++ " " ++
            as_expiry m.expiration_time ++ "!")) ∧
      (m.user_moderation_policy = .BlockChat →
        resolveModeration players m = Message.chat "<<MODERATION>>"
          ("User " ++ (players.get m.target_entity_id).getD
              ("\x7b" ++ toString m.target_entity_id ++ "\x7d") ++
            " has been banned from " ++ "chatting" ++ " " ++
            as_expiry m.expiration_time ++ "!")) ∧
      (m.user_moderation_policy = .BlockConstruct →
        resolveModeration players m = Message.chat "<<MODERATION>>"
          ("User " ++ (players.get m.target_entity_id).getD
              ("\x7b" ++ toString m.target_entity_id ++ "\x7d") ++
            " has been banned from " ++ "building" ++ " " ++
            as_expiry m.expiration_time ++ "!")) := by
  intro players m
  refine ⟨fun name hn => by simp [hn], fun hn => by simp [hn], rfl,
    fun h => ?_, fun h => ?_, fun h => ?_, fun h => ?_⟩ <;>
    simp [resolveModeration, h, Message.moderation]

/-- C5 witness, Scenario C: an unresolved target 42 under
TemporaryBlockLogin expiring at 1700000000000000 µs yields exactly
`"User \x7b42\x7d has been banned from logging in until
<t:1700000000:f>!!"`. -/
theorem moderation_row_formatting_witness :
    Cache.empty.get 42 = none ∧
    (⟨42, .TemporaryBlockLogin, 1700000000000000⟩ : ModerationRow).user_moderation_policy =
      .TemporaryBlockLogin ∧
    resolveModeration Cache.empty ⟨42, .TemporaryBlockLogin, 1700000000000000⟩ =
      Message.chat "<<MODERATION>>"
        "User \x7b42\x7d has been banned from logging in until <t:1700000000:f>!!" := by
  refine ⟨rfl, rfl, ?_⟩
  have h := ((moderation_row_formatting Cache.empty
    ⟨42, .TemporaryBlockLogin, 1700000000000000⟩).2.2.2.2.1) rfl
  rw [h]
  decide

/-- C3: the sink's loop breaks exactly when the queue holds the
`Disconnect` sentinel (an exhausted queue without a sentinel models a
sink still blocked in `recv`), and by the time it breaks it has echoed
every `Chat` notification preceding the sentinel, in order — it never
stops with an unconsumed `Chat` ahead of the sentinel. -/
theorem sink_terminates_iff_disconnect :
    ∀ (url : String) (d : Nat → Bool) (q : List Message),
      ((consume url d q).stopped = true ↔ Message.Disconnect ∈ q) ∧
      (consume url d q).echoed =
        (q.takeWhile (fun m => !m.isDisconnect)).filterMap chatLine := by
  intro url d q
  constructor
  · rw [consume, consumeFrom_stopped_eq]
    simp only [List.any_eq_true]
    constructor
    · rintro ⟨x, hx, hd⟩
      cases x with
      | Disconnect => exact hx
      | Chat u c => simp [Message.isDisconnect] at hd
    · intro hm
      exact ⟨Message.Disconnect, hm, rfl⟩
  · exact consumeFrom_echoed_eq url d q 0

/-- C7: the delivery outcome of any `Chat` affects neither the echo
lines, nor which messages get a delivery attempt, nor whether and where
the sink stops — only the count of logged failure diagnostics: every
failed attempt logs one line, every successful attempt none. -/
theorem delivery_failure_isolated :
    ∀ (url : String) (q : List Message) (d d' : Nat → Bool),
      ((consume url d q).echoed = (consume url d' q).echoed ∧
        (consume url d q).attempts = (consume url d' q).attempts ∧
        (consume url d q).stopped = (consume url d' q).stopped) ∧
      (consume url (fun _ => false) q).failures =
        (consume url (fun _ => false) q).attempts.length ∧
      (consume url (fun _ => true) q).failures = 0 := by
  intro url q d d'
  refine ⟨⟨?_, ?_, ?_⟩, consumeFrom_failures_all_bad url q 0,
    consumeFrom_failures_all_ok url q 0⟩
  · rw [consume, consume, consumeFrom_echoed_eq, consumeFrom_echoed_eq]
  · exact consumeFrom_attempts_indep url d d' q 0 0
  · rw [consume, consume, consumeFrom_stopped_eq, consumeFrom_stopped_eq]

/-- C8: every `Chat` the sink dequeues is echoed as
`"<username>: <content>"`; with an empty webhook url no delivery is ever
attempted, and with a non-empty url exactly one POST attempt is made per
dequeued `Chat`. -/
theorem sink_echo_and_delivery_policy :
    ∀ (d : Nat → Bool) (q : List Message),
      ((consume "" d q).attempts = []) ∧
      (∀ url : String, url ≠ "" →
        (consume url d q).attempts = q.takeWhile (fun m => !m.isDisconnect)) ∧
      (∀ url : String, (consume url d q).echoed =
        (q.takeWhile (fun m => !m.isDisconnect)).filterMap chatLine) := by
  intro d q
  exact ⟨consumeFrom_attempts_empty_url d q 0,
    fun url h => consumeFrom_attempts_of_ne url h d q 0,
    fun url => consumeFrom_echoed_eq url d q 0⟩

/-- C8 witness: with a non-empty url and the queue
`[Chat "Ann" "hi all", Disconnect]`, exactly the one chat is attempted. -/
theorem sink_echo_and_delivery_policy_witness :
    ("https://example.invalid" : String) ≠ "" ∧
    (consume "https://example.invalid" (fun _ => true)
        [Message.Chat "Ann" "hi all", Message.Disconnect]).attempts =
      [Message.Chat "Ann" "hi all"] := by
  refine ⟨by decide, ?_⟩
  have h := (sink_echo_and_delivery_policy (fun _ => true)
    [Message.Chat "Ann" "hi all", Message.Disconnect]).2.1
    "https://example.invalid" (by decide)
  rw [h]
  decide

/-! ## Helper lemmas about the caches and the sieve -/

/-- Folding inserts never removes a binding. -/
theorem insertAll_get_isSome_of_isSome (rows : List (Int × String)) :
    ∀ (m : Cache) (x : Int), (m.get x).isSome → ((m.insertAll rows).get x).isSome := by
  induction rows with
  | nil => intro m x h; exact h
  | cons r rs ih =>
    intro m x h
    show ((Cache.insertAll (m.insert r.1 r.2) rs).get x).isSome
    apply ih
    by_cases hx : x = r.1 <;> simp [Cache.insert, Cache.get, hx]
    exact h

/-- After folding a batch of inserts, every id occurring in the batch is
bound. -/
theorem insertAll_get_isSome_of_mem (rows : List (Int × String)) :
    ∀ (m : Cache) (x : Int), (∃ p ∈ rows, p.1 = x) →
      ((m.insertAll rows).get x).isSome := by
  induction rows with
  | nil =>
    rintro m x ⟨p, hp, hpx⟩
    simp at hp
  | cons r rs ih =>
    rintro m x ⟨p, hp, hpx⟩
    show ((Cache.insertAll (m.insert r.1 r.2) rs).get x).isSome
    rcases List.mem_cons.mp hp with h | h
    · subst h
      apply insertAll_get_isSome_of_isSome
      simp [Cache.insert, Cache.get, ← hpx]
    · exact ih _ x ⟨p, h, hpx⟩

/-- C2: within one `DbUpdate`, every reference insert is applied to the
caches before any fact row is resolved: the caches the fact rows see are
`(processUpdate c u).1`, in which every id inserted in the same batch is
bound; hence a chat row whose target id is inserted as an empire (resp.
claim) in the same batch resolves successfully and its notification is
among the batch's emitted messages. -/
theorem same_batch_reference_resolution :
    ∀ (c : Caches) (u : DbUpdate) (x : Int),
      ((∃ i ∈ u.claim_state.inserts, i.row.entity_id = x) →
        ((processUpdate c u).1.claims.get x).isSome) ∧
      ((∃ i ∈ u.empire_state.inserts, i.row.entity_id = x) →
        ((processUpdate c u).1.empires.get x).isSome) ∧
      ((∃ i ∈ u.player_username_state.inserts, i.row.entity_id = x) →
        ((processUpdate c u).1.players.get x).isSome) ∧
      (∀ i ∈ u.chat_message_state.inserts,
        (i.row.channel_id = EMPIRE_INTERNAL ∨ i.row.channel_id = EMPIRE_PUBLIC) →
        (∃ j ∈ u.empire_state.inserts, j.row.entity_id = i.row.target_id) →
        ∃ msg, resolveChat (processUpdate c u).1.claims (processUpdate c u).1.empires i.row =
            some msg ∧ msg ∈ (processUpdate c u).2) ∧
      (∀ i ∈ u.chat_message_state.inserts,
        i.row.channel_id = CLAIM →
        (∃ j ∈ u.claim_state.inserts, j.row.entity_id = i.row.target_id) →
        ∃ msg, resolveChat (processUpdate c u).1.claims (processUpdate c u).1.empires i.row =
            some msg ∧ msg ∈ (processUpdate c u).2) := by
  intro c u x
  have hclaim : ∀ y, (∃ i ∈ u.claim_state.inserts, i.row.entity_id = y) →
      ((processUpdate c u).1.claims.get y).isSome := by
    rintro y ⟨i, hi, hix⟩
    exact insertAll_get_isSome_of_mem _ _ _
      ⟨(i.row.entity_id, i.row.name), List.mem_map.mpr ⟨i, hi, rfl⟩, hix⟩
  have hempire : ∀ y, (∃ i ∈ u.empire_state.inserts, i.row.entity_id = y) →
      ((processUpdate c u).1.empires.get y).isSome := by
    rintro y ⟨i, hi, hix⟩
    exact insertAll_get_isSome_of_mem _ _ _
      ⟨(i.row.entity_id, i.row.name), List.mem_map.mpr ⟨i, hi, rfl⟩, hix⟩
  have hplayer : ∀ y, (∃ i ∈ u.player_username_state.inserts, i.row.entity_id = y) →
      ((processUpdate c u).1.players.get y).isSome := by
    rintro y ⟨i, hi, hix⟩
    exact insertAll_get_isSome_of_mem _ _ _
      ⟨(i.row.entity_id, i.row.username), List.mem_map.mpr ⟨i, hi, rfl⟩, hix⟩
  refine ⟨hclaim x, hempire x, hplayer x, ?_, ?_⟩
  · intro i hi hch hj
    obtain ⟨name, hname⟩ := Option.isSome_iff_exists.mp (hempire _ hj)
    refine ⟨Message.empire i.row.username name i.row.text, ?_, ?_⟩
    · simp [resolveChat, hch, hname]
    · exact List.mem_append_left _ (List.mem_filterMap.mpr
        ⟨i, hi, by simp [resolveChat, hch, hname]; exact ⟨name, hname, rfl⟩⟩)
  · intro i hi hch hj
    obtain ⟨name, hname⟩ := Option.isSome_iff_exists.mp (hclaim _ hj)
    refine ⟨Message.claim i.row.username name i.row.text, ?_, ?_⟩
    · simp [resolveChat, hch, hname, EMPIRE_INTERNAL, EMPIRE_PUBLIC, CLAIM]
    · exact List.mem_append_left _ (List.mem_filterMap.mpr
        ⟨i, hi, by
          simp [resolveChat, hch, hname, EMPIRE_INTERNAL, EMPIRE_PUBLIC, CLAIM]
          exact ⟨name, hname, rfl⟩⟩)

/-- C2 witness, Scenario A's tick: the empire `(5, "Sol Empire")` and the
dependent chat row arrive in the same batch; the lookup succeeds and the
resolved notification is emitted. -/
theorem same_batch_reference_resolution_witness :
    (∃ i ∈ scenarioA.empire_state.inserts, i.row.entity_id = (5 : Int)) ∧
    ((processUpdate Caches.init scenarioA).1.empires.get 5).isSome ∧
    Message.chat "Bob [Sol Empire]" "hello" ∈ (processUpdate Caches.init scenarioA).2 := by
  refine ⟨⟨⟨⟨5, "Sol Empire"⟩⟩, by decide, rfl⟩, ?_, ?_⟩
  · exact (same_batch_reference_resolution Caches.init scenarioA 5).2.1
      ⟨⟨⟨5, "Sol Empire"⟩⟩, by decide, rfl⟩
  · obtain ⟨msg, hres, hmem⟩ :=
      (same_batch_reference_resolution Caches.init scenarioA 5).2.2.2.1
        ⟨⟨EMPIRE_INTERNAL, 5, "Bob", "hello", 0⟩⟩ (by decide) (Or.inl rfl)
        ⟨⟨⟨5, "Sol Empire"⟩⟩, by decide, rfl⟩
    have hval : resolveChat (processUpdate Caches.init scenarioA).1.claims
        (processUpdate Caches.init scenarioA).1.empires
        (⟨⟨EMPIRE_INTERNAL, 5, "Bob", "hello", 0⟩⟩ : RowUpdate ChatRow).row =
        some (Message.chat "Bob [Sol Empire]" "hello") := by decide
    injection hval.symm.trans hres with h
    rw [h]
    exact hmem

/-! ## Helper lemmas for the shutdown analysis -/

/-- Every message `resolveChat` produces is a `Chat`. -/
theorem resolveChat_shape (claims empires : Cache) (m : ChatRow) (msg : Message)
    (h : resolveChat claims empires m = some msg) : ∃ u c, msg = Message.Chat u c := by
  unfold resolveChat at h
  split_ifs at h
  · obtain ⟨a, _, hf⟩ := Option.map_eq_some'.mp h
    exact ⟨_, _, hf.symm⟩
  · obtain ⟨a, _, hf⟩ := Option.map_eq_some'.mp h
    exact ⟨_, _, hf.symm⟩
  · exact ⟨_, _, (Option.some.inj h).symm⟩

/-- Every message `resolveModeration` produces is a `Chat`. -/
theorem resolveModeration_shape (players : Cache) (m : ModerationRow) :
    ∃ u c, resolveModeration players m = Message.Chat u c := by
  cases h : m.user_moderation_policy <;>
    simp [resolveModeration, h, Message.moderation, Message.chat]

/-- The sieve never sends the `Disconnect` sentinel. -/
theorem processUpdate_not_disconnect (c : Caches) (u : DbUpdate) :
    Message.Disconnect ∉ (processUpdate c u).2 := by
  intro h
  simp only [processUpdate, List.mem_append, List.mem_filterMap, List.mem_map] at h
  rcases h with ⟨i, _, hres⟩ | ⟨i, _, hres⟩
  · obtain ⟨u', c', hc⟩ := resolveChat_shape _ _ _ _ hres
    cases hc
  · obtain ⟨u', c', hc⟩ := resolveModeration_shape (applyRefs c u).players i.row
    rw [hres] at hc
    cases hc

/-- Reachability invariant: the number of sentinels ever enqueued is 0
before the disconnection fires and 1 after. -/
theorem reach_disconnect_count (us : List DbUpdate) (s : PState)
    (h : Reach (initState us) s) :
    s.sent.count Message.Disconnect = (if s.discPending = true then 0 else 1) := by
  induction h with
  | refl => simp [initState]
  | @tail s s' _ hs ih =>
    cases hs with
    | srcUpdate u rest h => simpa using ih
    | srcDisconnect h hd =>
      simp [hd] at ih
      simp [List.count_append, ih]
    | sieveStep u rest h =>
      have hz : ((processUpdate s.caches u).2.count Message.Disconnect) = 0 :=
        List.count_eq_zero.mpr (processUpdate_not_disconnect s.caches u)
      simpa [List.count_append, hz] using ih
    | sinkChat u c rest hrun h => simpa using ih
    | sinkDisconnect rest hrun h => simpa using ih

/-- C1 (amended): along every run, the `Disconnect` sentinel is enqueued
at most once; the second half of the original claim — that no `Chat` is
ever enqueued behind it — does not hold, see the counterexample. -/
theorem sentinel_enqueued_at_most_once :
    ∀ (us : List DbUpdate) (s : PState),
      Reach (initState us) s → s.sent.count Message.Disconnect ≤ 1 := by
  intro us s h
  rw [reach_disconnect_count us s h]
  split <;> decide

/-- C1 witness: the initial state of any run is reachable and satisfies
the bound. -/
theorem sentinel_enqueued_at_most_once_witness :
    Reach (initState []) (initState []) ∧
    (initState []).sent.count Message.Disconnect ≤ 1 :=
  ⟨Reach.refl, sentinel_enqueued_at_most_once [] (initState []) Reach.refl⟩

/-- C1 counterexample: in the run whose source delivers one tick holding
a Region chat row and then disconnects, the schedule source-forward,
disconnect, sieve is reachable and enqueues `Chat "Ann" "hi all"` behind
the sentinel — the claim fails as stated. -/
theorem chat_after_sentinel_reachable :
    ¬ (∀ s : PState, Reach (initState [demoUpdate]) s →
        s.sent.count Message.Disconnect ≤ 1 ∧ noChatAfterSentinel s.sent) := by
  intro h
  have hr : Reach (initState [demoUpdate]) runState3 :=
    Reach.tail (Reach.tail (Reach.tail Reach.refl
      (Step.srcUpdate (initState [demoUpdate]) demoUpdate [] rfl))
      (Step.srcDisconnect runState1 rfl rfl))
      (Step.sieveStep runState2 demoUpdate [] rfl)
  exact (h runState3 hr).2 [] [Message.Chat "Ann" "hi all"] "Ann" "hi all"
    (by decide) (by decide)

end ChatBridge
